import Mathlib

/-!
Shallow embedding of the LeadGen harvest platform core
(`harvest_platform/core/db.py`, `core/engine.py`, `core/base_scraper.py`,
`utils/anti_detection.py`, `scrapers/registry.py`, `scrapers/yellowpages_pro.py`).

Conventions of the embedding:
* Python `dict` lead records become the `Lead` structure whose fields are
  `Option String`; `none` stands for an absent key or a `None` value
  (`dict.get` conflates them on every code path modelled here, except
  the error-message default, which is immaterial to every claim).
* Python truthiness of an optional string (`None` and `""` are falsy) is
  `truthyOpt`.
* SQLite rows are structures with `Option String` for nullable columns.
  The `UNIQUE(business_name, city, phone)` constraint follows SQLite
  semantics: a NULL column value is distinct from every value, including
  another NULL, so a conflict requires the compared columns to be
  pairwise non-NULL and equal (`optSqlEq`).
* Wall-clock timestamps (`scraped_at`, `started_at`, `completed_at`) are
  not modelled except for a `completed : Bool` flag on log rows;
  JSON serialization of `metadata` is modelled as carrying the value
  opaquely.  No claim depends on either.
-/

/-- Python truthiness of an optional string: `None` and `""` are falsy. -/
def truthyOpt : Option String → Bool
  | none => false
  | some s => s ≠ ""

/-- SQL three-valued equality on nullable columns as used by a UNIQUE
constraint: the comparison holds only when both sides are non-NULL and
equal (SQLite treats NULLs in a UNIQUE index as distinct). -/
def optSqlEq : Option String → Option String → Bool
  | some a, some b => a = b
  | _, _ => false

/-- A raw lead record (a Python dict flowing out of an adapter into the
engine and the storage layer). -/
structure Lead where
  business_name : Option String := none
  city : Option String := none
  state : Option String := none
  phone : Option String := none
  email : Option String := none
  website : Option String := none
  address : Option String := none
  category : Option String := none
  metadata : Option String := none
  score : Int := 0
  deriving Repr, DecidableEq

/-- A row of the `leads` table (`business_name` is `TEXT NOT NULL`; the
other text columns are nullable). -/
structure LeadRow where
  id : Nat
  source_id : Nat
  business_name : String
  city : Option String
  state : Option String
  phone : Option String
  email : Option String
  website : Option String
  address : Option String
  category : Option String
  metadata : Option String
  score : Int
  deriving Repr, DecidableEq

/-- A row of the `scraper_logs` table. -/
structure LogRow where
  id : Nat
  source_id : Nat
  status : String
  leads_scraped : Nat
  error_message : Option String
  completed : Bool
  deriving Repr, DecidableEq

/-- A row of the `scheduled_jobs` table. -/
structure JobRow where
  id : Nat
  job_id : String
  source_id : Nat
  schedule_type : String
  schedule_config : String
  max_leads : Option Nat
  enabled : Bool
  deriving Repr, DecidableEq

/-- A row of the `sources` table (only the columns the modelled code
reads). -/
structure SourceRow where
  id : Nat
  name : String
  source_type : String
  enabled : Bool
  deriving Repr, DecidableEq

/-- The SQLite database state: the four tables plus the AUTOINCREMENT
counters for the two tables whose fresh row ids the code reads back. -/
structure DBState where
  sources : List SourceRow
  leads : List LeadRow
  logs : List LogRow
  jobs : List JobRow
  nextLeadId : Nat
  nextLogId : Nat
  deriving Repr, DecidableEq

/-- `DatabaseManager.save_lead`'s INSERT conflicts with an existing row
iff all three natural-key columns compare equal under SQL semantics
(`business_name` is never NULL: `save_lead` defaults it to `''`). -/
def leadConflict (row : LeadRow) (name : String) (city phone : Option String) : Bool :=
  row.business_name = name && optSqlEq row.city city && optSqlEq row.phone phone

/-- Whether `INSERT OR IGNORE` would ignore `lead` given the current
`leads` table. -/
def hasConflict (db : DBState) (lead : Lead) : Bool :=
  db.leads.any fun row =>
    leadConflict row (lead.business_name.getD "") lead.city lead.phone

/-- The `leads` row built by `save_lead`'s INSERT: every nullable column
takes `lead_data.get(...)` as-is, and `business_name` defaults to `''`. -/
def leadRowOf (id source_id : Nat) (lead : Lead) : LeadRow :=
  { id := id
    source_id := source_id
    business_name := lead.business_name.getD ""
    city := lead.city
    state := lead.state
    phone := lead.phone
    email := lead.email
    website := lead.website
    address := lead.address
    category := lead.category
    metadata := lead.metadata
    score := lead.score }

/-- `DatabaseManager.save_lead`: `INSERT OR IGNORE` into `leads`,
returning the fresh row id when a row was inserted and `None` when the
UNIQUE constraint ignored it. -/
def save_lead (db : DBState) (source_id : Nat) (lead : Lead) : Option Nat × DBState :=
  if hasConflict db lead then
    (none, db)
  else
    (some db.nextLeadId,
      { db with leads := db.leads ++ [leadRowOf db.nextLeadId source_id lead],
                nextLeadId := db.nextLeadId + 1 })

/-- `DatabaseManager.bulk_save_leads`: save each lead in order, counting
`saved` and `duplicates`. -/
def bulk_save_leads (db : DBState) (source_id : Nat) (leads : List Lead) :
    (Nat × Nat) × DBState :=
  match leads with
  | [] => ((0, 0), db)
  | lead :: rest =>
    let r1 := save_lead db source_id lead
    let r2 := bulk_save_leads r1.2 source_id rest
    -- `if result:` in Python tests the returned lead id, which SQLite
    -- AUTOINCREMENT guarantees is ≥ 1, hence truthy exactly when non-None.
    if r1.1.isSome then ((r2.1.1 + 1, r2.1.2), r2.2)
    else ((r2.1.1, r2.1.2 + 1), r2.2)

/-- `DatabaseManager.delete_source`: delete the source's leads, logs and
jobs, then the source row itself. -/
def delete_source (db : DBState) (source_id : Nat) : DBState :=
  { db with
    leads := db.leads.filter fun r => r.source_id ≠ source_id
    logs := db.logs.filter fun r => r.source_id ≠ source_id
    jobs := db.jobs.filter fun r => r.source_id ≠ source_id
    sources := db.sources.filter fun s => s.id ≠ source_id }

/-- `DatabaseManager.start_scrape_log`: insert a `'started'` log row and
return its id. -/
def start_scrape_log (db : DBState) (source_id : Nat) : Nat × DBState :=
  let row : LogRow :=
    { id := db.nextLogId
      source_id := source_id
      status := "started"
      leads_scraped := 0
      error_message := none
      completed := false }
  (db.nextLogId,
    { db with logs := db.logs ++ [row], nextLogId := db.nextLogId + 1 })

/-- `DatabaseManager.update_scrape_log`: set status, count, error and
completion time on the row with the given id. -/
def update_scrape_log (db : DBState) (log_id : Nat) (status : String)
    (leads_scraped : Nat) (error : Option String) : DBState :=
  { db with
    logs := db.logs.map fun r =>
      if r.id = log_id then
        { r with status := status, leads_scraped := leads_scraped,
                 error_message := error, completed := true }
      else r }

/-- `BaseScraper.validate_lead`: `business_name` must be truthy and at
least one of phone/email/website must be truthy. -/
def validate_lead (lead : Lead) : Bool :=
  if !truthyOpt lead.business_name then false
  else if !(truthyOpt lead.phone || truthyOpt lead.email || truthyOpt lead.website) then false
  else true

/-- The behaviour of one adapter instance during a run: the finite
sequence of leads its `scrape()` generator yields, and whether the
generator raises an exception (with message `excMsg`) when the engine
pulls past the last yielded lead. -/
structure AdapterRun where
  stream : List Lead
  raises : Bool
  excMsg : String
  deriving Repr, DecidableEq

/-- The dict returned by `HarvestEngine.run_scraper`.  The early-return
dicts in the Python code carry only the `success` and `error` keys; the
model fills the remaining fields with `0`/`[]`/`none` (no claim reads a
count from an early return). -/
structure RunResult where
  success : Bool
  leads_scraped : Nat
  leads_saved : Nat
  duplicates : Nat
  errors : List String
  error : Option String
  deriving Repr, DecidableEq

/-- An early-return dict `{'success': False, 'error': msg}`. -/
def earlyResult (msg : String) : RunResult :=
  { success := false, leads_scraped := 0, leads_saved := 0, duplicates := 0,
    errors := [], error := some msg }

/-- Python truthiness of the `max_leads` argument (`None` and `0` are
falsy, so `if max_leads and idx >= max_leads` never fires for them). -/
def capTruthy : Option Nat → Bool
  | none => false
  | some n => n ≠ 0

/-- The mutable pieces of `result` accumulated inside the scrape loop. -/
structure LoopAcc where
  scraped : Nat
  saved : Nat
  dups : Nat
  errors : List String
  deriving Repr, DecidableEq

/-- Outcome of the `for idx, lead_data in enumerate(scraper.scrape())`
loop: whether the generator raised while the engine was pulling the next
element, the accumulated counts, the unflushed buffer, and the database
state. -/
structure LoopOut where
  raised : Bool
  acc : LoopAcc
  buffer : List Lead
  db : DBState
  deriving Repr, DecidableEq

/-- `buffer_size = 50` in `HarvestEngine.run_scraper`. -/
def buffer_size : Nat := 50

/-- The message appended for an invalid lead.  (In Python the `'Unknown'`
default applies only when the key is absent; the model conflates an
absent key and a `None` value, which no claim distinguishes.) -/
def invalidMsg (lead : Lead) : String :=
  "Invalid lead skipped: " ++ lead.business_name.getD "Unknown"

/-- The engine's scrape loop.  Each list element is one successful pull
from the generator; on the empty list the generator either ends cleanly
(`raises = false`) or raises (`raises = true`).  The cap check runs
after the pull and before validation, on the enumerate index `idx`
(which counts every produced lead, valid or not). -/
def scrapeLoop (source_id : Nat) (max_leads : Option Nat) :
    List Lead → Bool → Nat → List Lead → LoopAcc → DBState → LoopOut
  | [], raises, _, buffer, acc, db =>
    { raised := raises, acc := acc, buffer := buffer, db := db }
  | lead :: rest, raises, idx, buffer, acc, db =>
    if capTruthy max_leads && decide (max_leads.getD 0 ≤ idx) then
      { raised := false, acc := acc, buffer := buffer, db := db }
    else if !validate_lead lead then
      scrapeLoop source_id max_leads rest raises (idx + 1) buffer
        { acc with errors := acc.errors ++ [invalidMsg lead] } db
    else
      let buffer' := buffer ++ [lead]
      let acc' := { acc with scraped := acc.scraped + 1 }
      if buffer_size ≤ buffer'.length then
        let r := bulk_save_leads db source_id buffer'
        scrapeLoop source_id max_leads rest raises (idx + 1) []
          { acc' with saved := acc'.saved + r.1.1, dups := acc'.dups + r.1.2 } r.2
      else
        scrapeLoop source_id max_leads rest raises (idx + 1) buffer' acc' db

/-- `HarvestEngine.run_scraper`.  `adapter` is the outcome of
`get_scraper`: `none` when no scraper is registered for the source type
or its construction fails, otherwise the instantiated adapter's
behaviour for this run. -/
def run_scraper (db : DBState) (source_id : Nat) (max_leads : Option Nat)
    (adapter : Option AdapterRun) : RunResult × DBState :=
  match db.sources.find? (fun s => s.id = source_id) with
  | none => (earlyResult "Source not found", db)
  | some src =>
    if !src.enabled then
      (earlyResult "Source is disabled", db)
    else
      let log_id := (start_scrape_log db source_id).1
      let db1 := (start_scrape_log db source_id).2
      match adapter with
      | none =>
        (earlyResult "Scraper not available",
          update_scrape_log db1 log_id "failed" 0 (some "Scraper not available"))
      | some ad =>
        let out := scrapeLoop source_id max_leads ad.stream ad.raises 0 []
          { scraped := 0, saved := 0, dups := 0, errors := [] } db1
        if out.raised then
          let msg := "Scraping failed: " ++ ad.excMsg
          ({ success := false, leads_scraped := out.acc.scraped,
             leads_saved := out.acc.saved, duplicates := out.acc.dups,
             errors := out.acc.errors ++ [msg], error := none },
           update_scrape_log out.db log_id "failed" out.acc.saved (some msg))
        else
          let fl :=
            if out.buffer.isEmpty then ((0, 0), out.db)
            else bulk_save_leads out.db source_id out.buffer
          let res : RunResult :=
            { success := true, leads_scraped := out.acc.scraped,
              leads_saved := out.acc.saved + fl.1.1,
              duplicates := out.acc.dups + fl.1.2,
              errors := out.acc.errors, error := none }
          (res, update_scrape_log fl.2 log_id "success" res.leads_saved none)

/-- `AntiDetection.jitter_delay`: `base_delay + random.uniform(-1, 2)`
clamped into `[min_delay, max_delay]`.  The uniform sample is the
explicit argument `u`; reals are modelled as rationals. -/
def jitter_delay (base_delay min_delay max_delay u : ℚ) : ℚ :=
  max min_delay (min max_delay (base_delay + u))

/-- `AntiDetection.smart_sleep` sleeps `jitter_delay(base_delay)` with
the default floor `2.0` and ceiling `7.0`. -/
def smart_sleep_delay (base_delay u : ℚ) : ℚ :=
  jitter_delay base_delay 2 7 u

/-- The sleeps performed by `BaseScraper._make_request`: exactly one
jittered sleep of the per-source `rate_limit_delay`, performed after
`raise_for_status` passes (`ok = true`); a failed request sleeps not at
all (the `RequestException` handler returns `None` directly). -/
def make_request_sleeps (ok : Bool) (rate_limit_delay u : ℚ) : List ℚ :=
  if ok then [smart_sleep_delay rate_limit_delay u] else []

/-- One listing fragment: text lookup per CSS locator string, and
attribute lookup.  A `none` result models both `select_one` finding no
node and an extraction exception — the code degrades both to `None`. -/
structure Element where
  text : String → Option String
  attr : String → String → Option String

/-- `ExampleDirectScraper._extract_text`: a falsy locator (absent from
the selector mapping, or empty) yields `None` without touching the
element. -/
def extract_text (element : Element) (locator : Option String) : Option String :=
  match locator with
  | none => none
  | some s => if s = "" then none else element.text s

/-- `ExampleDirectScraper._extract_attr`. -/
def extract_attr (element : Element) (locator : Option String) (a : String) :
    Option String :=
  match locator with
  | none => none
  | some s => if s = "" then none else element.attr s a

/-- `ExampleDirectScraper.parse_lead`: builds the lead dict field by
field; every extraction is individually guarded, so the `try` body never
raises and the element is always returned as a lead — even when
`business_name` extraction yields `None`. -/
def exampleDirect_parse_lead (selectors : String → Option String)
    (element : Element) : Option Lead :=
  some { business_name := extract_text element (selectors "business_name")
         phone := extract_text element (selectors "phone")
         email := extract_text element (selectors "email")
         website := extract_attr element (selectors "website") "href"
         address := extract_text element (selectors "address")
         city := extract_text element (selectors "city")
         state := extract_text element (selectors "state")
         category := extract_text element (selectors "category") }

/-- The hard-coded locator strings of `YellowPagesProScraper.parse_lead`. -/
def yp_name_locator : String := ".business-name, h2.business-name, h2 a"

def yp_phone_locator : String := ".phones, .phone"

def yp_city_locator : String := ".locality"

def yp_state_locator : String := ".region"

/-- `YellowPagesProScraper.parse_lead`: a missing business-name node
discards the whole element; any other missing node degrades its field to
`None`. -/
def yellowpages_parse_lead (element : Element) : Option Lead :=
  match element.text yp_name_locator with
  | none => none
  | some nm =>
    some { business_name := some nm
           phone := element.text yp_phone_locator
           city := element.text yp_city_locator
           state := element.text yp_state_locator
           category := some "Yellow Pages" }

/-! Concrete states and inputs used by the closed theorems below. -/

/-- A database with no rows at all (fresh AUTOINCREMENT counters start
at 1, as in SQLite). -/
def emptyDB : DBState :=
  { sources := [], leads := [], logs := [], jobs := [],
    nextLeadId := 1, nextLogId := 1 }

/-- An enabled source row. -/
def enabledSrc : SourceRow :=
  { id := 1, name := "s", source_type := "example_direct", enabled := true }

/-- A database holding one enabled source and nothing else. -/
def dbOneSource : DBState := { emptyDB with sources := [enabledSrc] }

/-- A disabled source row. -/
def disabledSrc : SourceRow :=
  { id := 1, name := "s", source_type := "example_direct", enabled := false }

/-- A database holding one disabled source and nothing else. -/
def dbDisabled : DBState := { emptyDB with sources := [disabledSrc] }

/-- The lead of the spec's dedup scenario: `{name: "A", phone: "1"}`,
no city key. -/
def dupLead : Lead := { business_name := some "A", phone := some "1" }

/-- A lead whose natural-key columns are all non-NULL. -/
def keyedLead : Lead :=
  { business_name := some "A", city := some "C", phone := some "1" }

/-- A valid lead (truthy name, truthy phone). -/
def validLead : Lead := { business_name := some "B", phone := some "2" }

/-- An invalid lead: a name but no contact field at all. -/
def contactlessLead : Lead := { business_name := some "N" }

/-- Sixty pairwise-distinct valid leads, as in the spec's
raise-after-60 scenario. -/
def leads60 : List Lead :=
  (List.range 60).map fun i =>
    { business_name := some ("B" ++ toString i), phone := some "5" }

/-- An element on which every extraction comes back empty. -/
def noNameElement : Element :=
  { text := fun _ => none, attr := fun _ _ => none }

/-- A selector mapping that supplies a locator for every field. -/
def allSelectors : String → Option String := fun f => some ("." ++ f)

/-- The all-`none` lead record. -/
def blankLead : Lead := {}

/-- The accumulator at loop entry. -/
def initAcc : LoopAcc := { scraped := 0, saved := 0, dups := 0, errors := [] }

/-- The scrape loop exactly as `run_scraper` enters it: fresh
accumulator, empty buffer, and the database already holding the started
log row. -/
def runLoop (db : DBState) (sid : Nat) (ml : Option Nat) (ad : AdapterRun) : LoopOut :=
  scrapeLoop sid ml ad.stream ad.raises 0 [] initAcc (start_scrape_log db sid).2

/-! Basic lemmas about the storage layer. -/

theorem save_lead_of_conflict (db : DBState) (sid : Nat) (lead : Lead)
    (h : hasConflict db lead = true) : save_lead db sid lead = (none, db) := by
  simp [save_lead, h]

theorem save_lead_of_fresh (db : DBState) (sid : Nat) (lead : Lead)
    (h : hasConflict db lead = false) :
    save_lead db sid lead =
      (some db.nextLeadId,
        { db with leads := db.leads ++ [leadRowOf db.nextLeadId sid lead],
                  nextLeadId := db.nextLeadId + 1 }) := by
  simp [save_lead, h]

theorem hasConflict_iff (db : DBState) (lead : Lead) :
    hasConflict db lead = true ↔
      ∃ row ∈ db.leads,
        leadConflict row (lead.business_name.getD "") lead.city lead.phone = true := by
  simp [hasConflict, List.any_eq_true]

theorem optSqlEq_some_right (x : Option String) (v : String) :
    optSqlEq x (some v) = decide (x = some v) := by
  cases x <;> simp [optSqlEq]

theorem optSqlEq_none_right (x : Option String) : optSqlEq x none = false := by
  cases x <;> rfl

theorem save_lead_frame (db : DBState) (sid : Nat) (lead : Lead) :
    (save_lead db sid lead).2.logs = db.logs ∧
    (save_lead db sid lead).2.sources = db.sources ∧
    (save_lead db sid lead).2.jobs = db.jobs ∧
    (save_lead db sid lead).2.nextLogId = db.nextLogId := by
  by_cases h : hasConflict db lead <;> simp [save_lead, h]

theorem bulk_save_frame (sid : Nat) :
    ∀ (leads : List Lead) (db : DBState),
    (bulk_save_leads db sid leads).2.logs = db.logs ∧
    (bulk_save_leads db sid leads).2.sources = db.sources ∧
    (bulk_save_leads db sid leads).2.jobs = db.jobs ∧
    (bulk_save_leads db sid leads).2.nextLogId = db.nextLogId := by
  intro leads
  induction leads with
  | nil => intro db; simp [bulk_save_leads]
  | cons lead rest ih =>
    intro db
    have hs := save_lead_frame db sid lead
    have hr := ih (save_lead db sid lead).2
    cases h : (save_lead db sid lead).1.isSome <;>
      simp only [bulk_save_leads, h, Bool.false_eq_true, if_false, if_true] <;>
      exact ⟨hr.1.trans hs.1, hr.2.1.trans hs.2.1, hr.2.2.1.trans hs.2.2.1,
             hr.2.2.2.trans hs.2.2.2⟩

theorem bulk_save_counts (sid : Nat) :
    ∀ (leads : List Lead) (db : DBState),
    (bulk_save_leads db sid leads).1.1 + (bulk_save_leads db sid leads).1.2 =
      leads.length := by
  intro leads
  induction leads with
  | nil => intro db; simp [bulk_save_leads]
  | cons lead rest ih =>
    intro db
    have hr := ih (save_lead db sid lead).2
    cases h : (save_lead db sid lead).1.isSome <;>
      simp only [bulk_save_leads, h, Bool.false_eq_true, if_false, if_true,
        List.length_cons] <;>
      omega

theorem save_lead_rows (db : DBState) (sid : Nat) (lead : Lead) :
    ∀ row ∈ (save_lead db sid lead).2.leads,
      row ∈ db.leads ∨ row = leadRowOf db.nextLeadId sid lead := by
  intro row hrow
  by_cases h : hasConflict db lead
  · rw [save_lead_of_conflict db sid lead h] at hrow
    exact Or.inl hrow
  · rw [save_lead_of_fresh db sid lead (by simpa using h)] at hrow
    simp only [List.mem_append, List.mem_singleton] at hrow
    exact hrow

theorem bulk_save_rows (sid : Nat) :
    ∀ (leads : List Lead) (db : DBState),
    ∀ row ∈ (bulk_save_leads db sid leads).2.leads,
      row ∈ db.leads ∨ ∃ l ∈ leads, ∃ i, row = leadRowOf i sid l := by
  intro leads
  induction leads with
  | nil => intro db row hrow; exact Or.inl (by simpa [bulk_save_leads] using hrow)
  | cons lead rest ih =>
    intro db row hrow
    have hrow' : row ∈ (bulk_save_leads (save_lead db sid lead).2 sid rest).2.leads := by
      cases h : (save_lead db sid lead).1.isSome <;>
        simpa only [bulk_save_leads, h, Bool.false_eq_true, if_false, if_true] using hrow
    rcases ih (save_lead db sid lead).2 row hrow' with h1 | ⟨l, hl, i, hi⟩
    · rcases save_lead_rows db sid lead row h1 with h2 | h2
      · exact Or.inl h2
      · exact Or.inr ⟨lead, List.mem_cons_self _ _, db.nextLeadId, h2⟩
    · exact Or.inr ⟨l, List.mem_cons_of_mem _ hl, i, hi⟩

/-! Branch equations for the scrape loop. -/

theorem scrapeLoop_nil (sid : Nat) (ml : Option Nat) (raises : Bool) (idx : Nat)
    (buffer : List Lead) (acc : LoopAcc) (db : DBState) :
    scrapeLoop sid ml [] raises idx buffer acc db =
      { raised := raises, acc := acc, buffer := buffer, db := db } := rfl

theorem scrapeLoop_cons_break (sid : Nat) (ml : Option Nat) (lead : Lead)
    (rest : List Lead) (raises : Bool) (idx : Nat) (buffer : List Lead)
    (acc : LoopAcc) (db : DBState)
    (hg : (capTruthy ml && decide (ml.getD 0 ≤ idx)) = true) :
    scrapeLoop sid ml (lead :: rest) raises idx buffer acc db =
      { raised := false, acc := acc, buffer := buffer, db := db } := by
  simp [scrapeLoop, hg]

theorem scrapeLoop_cons_invalid (sid : Nat) (ml : Option Nat) (lead : Lead)
    (rest : List Lead) (raises : Bool) (idx : Nat) (buffer : List Lead)
    (acc : LoopAcc) (db : DBState)
    (hg : (capTruthy ml && decide (ml.getD 0 ≤ idx)) = false)
    (hv : validate_lead lead = false) :
    scrapeLoop sid ml (lead :: rest) raises idx buffer acc db =
      scrapeLoop sid ml rest raises (idx + 1) buffer
        { acc with errors := acc.errors ++ [invalidMsg lead] } db := by
  simp [scrapeLoop, hg, hv]

theorem scrapeLoop_cons_flush (sid : Nat) (ml : Option Nat) (lead : Lead)
    (rest : List Lead) (raises : Bool) (idx : Nat) (buffer : List Lead)
    (acc : LoopAcc) (db : DBState)
    (hg : (capTruthy ml && decide (ml.getD 0 ≤ idx)) = false)
    (hv : validate_lead lead = true)
    (hb : buffer_size ≤ (buffer ++ [lead]).length) :
    scrapeLoop sid ml (lead :: rest) raises idx buffer acc db =
      scrapeLoop sid ml rest raises (idx + 1) []
        { scraped := acc.scraped + 1
          saved := acc.saved + (bulk_save_leads db sid (buffer ++ [lead])).1.1
          dups := acc.dups + (bulk_save_leads db sid (buffer ++ [lead])).1.2
          errors := acc.errors }
        (bulk_save_leads db sid (buffer ++ [lead])).2 := by
  simp only [scrapeLoop]
  rw [hg]
  simp only [Bool.false_eq_true, if_false]
  rw [hv]
  simp only [Bool.not_true, Bool.false_eq_true, if_false]
  rw [if_pos hb]

theorem scrapeLoop_cons_grow (sid : Nat) (ml : Option Nat) (lead : Lead)
    (rest : List Lead) (raises : Bool) (idx : Nat) (buffer : List Lead)
    (acc : LoopAcc) (db : DBState)
    (hg : (capTruthy ml && decide (ml.getD 0 ≤ idx)) = false)
    (hv : validate_lead lead = true)
    (hb : ¬ buffer_size ≤ (buffer ++ [lead]).length) :
    scrapeLoop sid ml (lead :: rest) raises idx buffer acc db =
      scrapeLoop sid ml rest raises (idx + 1) (buffer ++ [lead])
        { acc with scraped := acc.scraped + 1 } db := by
  simp only [scrapeLoop]
  rw [hg]
  simp only [Bool.false_eq_true, if_false]
  rw [hv]
  simp only [Bool.not_true, Bool.false_eq_true, if_false]
  rw [if_neg hb]

/-- When the cap argument is falsy the two guard tests can never fire,
so the loop is the same function for any two falsy caps. -/
theorem scrapeLoop_no_cap_eq (sid : Nat) (ml : Option Nat)
    (hml : capTruthy ml = false) :
    ∀ (stream : List Lead) (raises : Bool) (idx : Nat) (buffer : List Lead)
      (acc : LoopAcc) (db : DBState),
    scrapeLoop sid ml stream raises idx buffer acc db =
      scrapeLoop sid none stream raises idx buffer acc db := by
  intro stream
  induction stream with
  | nil => intro raises idx buffer acc db; rfl
  | cons lead rest ih =>
    intro raises idx buffer acc db
    have hg : (capTruthy ml && decide (ml.getD 0 ≤ idx)) = false := by
      simp [hml]
    have hg' : (capTruthy (none : Option Nat) &&
        decide ((none : Option Nat).getD 0 ≤ idx)) = false := by
      simp [capTruthy]
    cases hv : validate_lead lead with
    | false =>
      rw [scrapeLoop_cons_invalid sid ml lead rest raises idx buffer acc db hg hv,
          scrapeLoop_cons_invalid sid none lead rest raises idx buffer acc db hg' hv]
      exact ih raises (idx + 1) buffer _ db
    | true =>
      by_cases hb : buffer_size ≤ (buffer ++ [lead]).length
      · rw [scrapeLoop_cons_flush sid ml lead rest raises idx buffer acc db hg hv hb,
            scrapeLoop_cons_flush sid none lead rest raises idx buffer acc db hg' hv hb]
        exact ih raises (idx + 1) [] _ _
      · rw [scrapeLoop_cons_grow sid ml lead rest raises idx buffer acc db hg hv hb,
            scrapeLoop_cons_grow sid none lead rest raises idx buffer acc db hg' hv hb]
        exact ih raises (idx + 1) (buffer ++ [lead]) _ db

/-- The scrape loop touches only the `leads` table and its id counter:
logs, sources and the log-id counter pass through unchanged. -/
theorem scrapeLoop_frame (sid : Nat) (ml : Option Nat) :
    ∀ (stream : List Lead) (raises : Bool) (idx : Nat) (buffer : List Lead)
      (acc : LoopAcc) (db : DBState),
    (scrapeLoop sid ml stream raises idx buffer acc db).db.logs = db.logs ∧
    (scrapeLoop sid ml stream raises idx buffer acc db).db.sources = db.sources ∧
    (scrapeLoop sid ml stream raises idx buffer acc db).db.nextLogId = db.nextLogId := by
  intro stream
  induction stream with
  | nil => intro raises idx buffer acc db; rw [scrapeLoop_nil]; exact ⟨rfl, rfl, rfl⟩
  | cons lead rest ih =>
    intro raises idx buffer acc db
    cases hg : (capTruthy ml && decide (ml.getD 0 ≤ idx)) with
    | true =>
      rw [scrapeLoop_cons_break sid ml lead rest raises idx buffer acc db hg]
      exact ⟨rfl, rfl, rfl⟩
    | false =>
      cases hv : validate_lead lead with
      | false =>
        rw [scrapeLoop_cons_invalid sid ml lead rest raises idx buffer acc db hg hv]
        exact ih raises (idx + 1) buffer _ db
      | true =>
        by_cases hb : buffer_size ≤ (buffer ++ [lead]).length
        · rw [scrapeLoop_cons_flush sid ml lead rest raises idx buffer acc db hg hv hb]
          have h1 := ih raises (idx + 1) []
            { scraped := acc.scraped + 1
              saved := acc.saved + (bulk_save_leads db sid (buffer ++ [lead])).1.1
              dups := acc.dups + (bulk_save_leads db sid (buffer ++ [lead])).1.2
              errors := acc.errors }
            (bulk_save_leads db sid (buffer ++ [lead])).2
          have h2 := bulk_save_frame sid (buffer ++ [lead]) db
          exact ⟨h1.1.trans h2.1, h1.2.1.trans h2.2.1, h1.2.2.trans h2.2.2.2⟩
        · rw [scrapeLoop_cons_grow sid ml lead rest raises idx buffer acc db hg hv hb]
          exact ih raises (idx + 1) (buffer ++ [lead]) _ db

/-- Conservation of leads through the loop: every scraped lead is either
still in the buffer or has been passed to a flush, where it was counted
as saved or as duplicate. -/
theorem scrapeLoop_balance (sid : Nat) (ml : Option Nat) :
    ∀ (stream : List Lead) (raises : Bool) (idx : Nat) (buffer : List Lead)
      (acc : LoopAcc) (db : DBState),
    (scrapeLoop sid ml stream raises idx buffer acc db).acc.saved +
      (scrapeLoop sid ml stream raises idx buffer acc db).acc.dups +
      (scrapeLoop sid ml stream raises idx buffer acc db).buffer.length +
      acc.scraped =
    acc.saved + acc.dups + buffer.length +
      (scrapeLoop sid ml stream raises idx buffer acc db).acc.scraped := by
  intro stream
  induction stream with
  | nil => intro raises idx buffer acc db; rw [scrapeLoop_nil]
  | cons lead rest ih =>
    intro raises idx buffer acc db
    cases hg : (capTruthy ml && decide (ml.getD 0 ≤ idx)) with
    | true =>
      rw [scrapeLoop_cons_break sid ml lead rest raises idx buffer acc db hg]
    | false =>
      cases hv : validate_lead lead with
      | false =>
        rw [scrapeLoop_cons_invalid sid ml lead rest raises idx buffer acc db hg hv]
        have h1 := ih raises (idx + 1) buffer
          { acc with errors := acc.errors ++ [invalidMsg lead] } db
        dsimp only at h1 ⊢
        omega
      | true =>
        by_cases hb : buffer_size ≤ (buffer ++ [lead]).length
        · rw [scrapeLoop_cons_flush sid ml lead rest raises idx buffer acc db hg hv hb]
          have h1 := ih raises (idx + 1) []
            { scraped := acc.scraped + 1
              saved := acc.saved + (bulk_save_leads db sid (buffer ++ [lead])).1.1
              dups := acc.dups + (bulk_save_leads db sid (buffer ++ [lead])).1.2
              errors := acc.errors }
            (bulk_save_leads db sid (buffer ++ [lead])).2
          have h2 := bulk_save_counts sid (buffer ++ [lead]) db
          dsimp only at h1 ⊢
          simp only [List.length_nil, List.length_append, List.length_cons] at h1 h2 ⊢
          omega
        · rw [scrapeLoop_cons_grow sid ml lead rest raises idx buffer acc db hg hv hb]
          have h1 := ih raises (idx + 1) (buffer ++ [lead])
            { acc with scraped := acc.scraped + 1 } db
          dsimp only at h1 ⊢
          simp only [List.length_append, List.length_cons, List.length_nil] at h1 ⊢
          omega

/-- Under a truthy cap `n`, the loop scrapes at most `n - idx` further
leads. -/
theorem scrapeLoop_cap_bound (sid n : Nat) (hn : capTruthy (some n) = true) :
    ∀ (stream : List Lead) (raises : Bool) (idx : Nat) (buffer : List Lead)
      (acc : LoopAcc) (db : DBState),
    (scrapeLoop sid (some n) stream raises idx buffer acc db).acc.scraped ≤
      acc.scraped + (n - idx) := by
  intro stream
  induction stream with
  | nil => intro raises idx buffer acc db; rw [scrapeLoop_nil]; dsimp only; omega
  | cons lead rest ih =>
    intro raises idx buffer acc db
    cases hg : (capTruthy (some n) && decide ((some n).getD 0 ≤ idx)) with
    | true =>
      rw [scrapeLoop_cons_break sid (some n) lead rest raises idx buffer acc db hg]
      dsimp only
      omega
    | false =>
      have hlt : idx < n := by
        rw [hn, Bool.true_and] at hg
        simpa using hg
      cases hv : validate_lead lead with
      | false =>
        rw [scrapeLoop_cons_invalid sid (some n) lead rest raises idx buffer acc db hg hv]
        have h1 := ih raises (idx + 1) buffer
          { acc with errors := acc.errors ++ [invalidMsg lead] } db
        dsimp only at h1 ⊢
        omega
      | true =>
        by_cases hb : buffer_size ≤ (buffer ++ [lead]).length
        · rw [scrapeLoop_cons_flush sid (some n) lead rest raises idx buffer acc db hg hv hb]
          have h1 := ih raises (idx + 1) []
            { scraped := acc.scraped + 1
              saved := acc.saved + (bulk_save_leads db sid (buffer ++ [lead])).1.1
              dups := acc.dups + (bulk_save_leads db sid (buffer ++ [lead])).1.2
              errors := acc.errors }
            (bulk_save_leads db sid (buffer ++ [lead])).2
          dsimp only at h1 ⊢
          omega
        · rw [scrapeLoop_cons_grow sid (some n) lead rest raises idx buffer acc db hg hv hb]
          have h1 := ih raises (idx + 1) (buffer ++ [lead])
            { acc with scraped := acc.scraped + 1 } db
          dsimp only at h1 ⊢
          omega

/-- Under a truthy cap, a stream holding more than the remaining `n - idx`
leads makes the loop break on the cap check rather than run into the
generator's exception. -/
theorem scrapeLoop_cap_breaks (sid n : Nat) (hn : capTruthy (some n) = true) :
    ∀ (stream : List Lead) (raises : Bool) (idx : Nat) (buffer : List Lead)
      (acc : LoopAcc) (db : DBState), n - idx < stream.length →
    (scrapeLoop sid (some n) stream raises idx buffer acc db).raised = false := by
  intro stream
  induction stream with
  | nil => intro raises idx buffer acc db h; simp at h
  | cons lead rest ih =>
    intro raises idx buffer acc db h
    cases hg : (capTruthy (some n) && decide ((some n).getD 0 ≤ idx)) with
    | true =>
      rw [scrapeLoop_cons_break sid (some n) lead rest raises idx buffer acc db hg]
    | false =>
      have hlt : idx < n := by
        rw [hn, Bool.true_and] at hg
        simpa using hg
      have h' : n - (idx + 1) < rest.length := by
        simp only [List.length_cons] at h
        omega
      cases hv : validate_lead lead with
      | false =>
        rw [scrapeLoop_cons_invalid sid (some n) lead rest raises idx buffer acc db hg hv]
        exact ih raises (idx + 1) buffer _ db h'
      | true =>
        by_cases hb : buffer_size ≤ (buffer ++ [lead]).length
        · rw [scrapeLoop_cons_flush sid (some n) lead rest raises idx buffer acc db hg hv hb]
          exact ih raises (idx + 1) []
            { scraped := acc.scraped + 1
              saved := acc.saved + (bulk_save_leads db sid (buffer ++ [lead])).1.1
              dups := acc.dups + (bulk_save_leads db sid (buffer ++ [lead])).1.2
              errors := acc.errors }
            (bulk_save_leads db sid (buffer ++ [lead])).2 h'
        · rw [scrapeLoop_cons_grow sid (some n) lead rest raises idx buffer acc db hg hv hb]
          exact ih raises (idx + 1) (buffer ++ [lead]) _ db h'

/-- The loop reports an exception only when the generator actually
raises. -/
theorem scrapeLoop_raised_imp (sid : Nat) (ml : Option Nat) :
    ∀ (stream : List Lead) (raises : Bool) (idx : Nat) (buffer : List Lead)
      (acc : LoopAcc) (db : DBState),
    (scrapeLoop sid ml stream raises idx buffer acc db).raised = true →
      raises = true := by
  intro stream
  induction stream with
  | nil => intro raises idx buffer acc db h; exact h
  | cons lead rest ih =>
    intro raises idx buffer acc db h
    cases hg : (capTruthy ml && decide (ml.getD 0 ≤ idx)) with
    | true =>
      rw [scrapeLoop_cons_break sid ml lead rest raises idx buffer acc db hg] at h
      exact absurd h (by simp)
    | false =>
      cases hv : validate_lead lead with
      | false =>
        rw [scrapeLoop_cons_invalid sid ml lead rest raises idx buffer acc db hg hv] at h
        exact ih raises (idx + 1) buffer _ db h
      | true =>
        by_cases hb : buffer_size ≤ (buffer ++ [lead]).length
        · rw [scrapeLoop_cons_flush sid ml lead rest raises idx buffer acc db hg hv hb] at h
          exact ih raises (idx + 1) []
            { scraped := acc.scraped + 1
              saved := acc.saved + (bulk_save_leads db sid (buffer ++ [lead])).1.1
              dups := acc.dups + (bulk_save_leads db sid (buffer ++ [lead])).1.2
              errors := acc.errors }
            (bulk_save_leads db sid (buffer ++ [lead])).2 h
        · rw [scrapeLoop_cons_grow sid ml lead rest raises idx buffer acc db hg hv hb] at h
          exact ih raises (idx + 1) (buffer ++ [lead]) _ db h

/-- Without a truthy cap the loop consumes the whole stream, so it ends
raised exactly when the generator raises. -/
theorem scrapeLoop_no_cap_raised (sid : Nat) (ml : Option Nat)
    (hml : capTruthy ml = false) :
    ∀ (stream : List Lead) (raises : Bool) (idx : Nat) (buffer : List Lead)
      (acc : LoopAcc) (db : DBState),
    (scrapeLoop sid ml stream raises idx buffer acc db).raised = raises := by
  intro stream
  induction stream with
  | nil => intro raises idx buffer acc db; rfl
  | cons lead rest ih =>
    intro raises idx buffer acc db
    have hg : (capTruthy ml && decide (ml.getD 0 ≤ idx)) = false := by
      rw [hml, Bool.false_and]
    cases hv : validate_lead lead with
    | false =>
      rw [scrapeLoop_cons_invalid sid ml lead rest raises idx buffer acc db hg hv]
      exact ih raises (idx + 1) buffer _ db
    | true =>
      by_cases hb : buffer_size ≤ (buffer ++ [lead]).length
      · rw [scrapeLoop_cons_flush sid ml lead rest raises idx buffer acc db hg hv hb]
        exact ih raises (idx + 1) []
          { scraped := acc.scraped + 1
            saved := acc.saved + (bulk_save_leads db sid (buffer ++ [lead])).1.1
            dups := acc.dups + (bulk_save_leads db sid (buffer ++ [lead])).1.2
            errors := acc.errors }
          (bulk_save_leads db sid (buffer ++ [lead])).2
      · rw [scrapeLoop_cons_grow sid ml lead rest raises idx buffer acc db hg hv hb]
        exact ih raises (idx + 1) (buffer ++ [lead]) _ db

/-- Without a truthy cap, every invalid lead of the stream — and nothing
else — appends one entry to the run's error list. -/
theorem scrapeLoop_no_cap_errors (sid : Nat) (ml : Option Nat)
    (hml : capTruthy ml = false) :
    ∀ (stream : List Lead) (raises : Bool) (idx : Nat) (buffer : List Lead)
      (acc : LoopAcc) (db : DBState),
    (scrapeLoop sid ml stream raises idx buffer acc db).acc.errors.length =
      acc.errors.length + (stream.filter fun l => !validate_lead l).length := by
  intro stream
  induction stream with
  | nil => intro raises idx buffer acc db; rw [scrapeLoop_nil]; simp
  | cons lead rest ih =>
    intro raises idx buffer acc db
    have hg : (capTruthy ml && decide (ml.getD 0 ≤ idx)) = false := by
      rw [hml, Bool.false_and]
    cases hv : validate_lead lead with
    | false =>
      rw [scrapeLoop_cons_invalid sid ml lead rest raises idx buffer acc db hg hv]
      have h1 := ih raises (idx + 1) buffer
        { acc with errors := acc.errors ++ [invalidMsg lead] } db
      dsimp only at h1 ⊢
      rw [h1]
      simp [hv]
      omega
    | true =>
      by_cases hb : buffer_size ≤ (buffer ++ [lead]).length
      · rw [scrapeLoop_cons_flush sid ml lead rest raises idx buffer acc db hg hv hb]
        have h1 := ih raises (idx + 1) []
          { scraped := acc.scraped + 1
            saved := acc.saved + (bulk_save_leads db sid (buffer ++ [lead])).1.1
            dups := acc.dups + (bulk_save_leads db sid (buffer ++ [lead])).1.2
            errors := acc.errors }
          (bulk_save_leads db sid (buffer ++ [lead])).2
        dsimp only at h1 ⊢
        rw [h1]
        simp [hv]
      · rw [scrapeLoop_cons_grow sid ml lead rest raises idx buffer acc db hg hv hb]
        have h1 := ih raises (idx + 1) (buffer ++ [lead])
          { acc with scraped := acc.scraped + 1 } db
        dsimp only at h1 ⊢
        rw [h1]
        simp [hv]

/-- Validity of buffered leads is preserved by the loop. -/
theorem scrapeLoop_buffer_valid (sid : Nat) (ml : Option Nat) :
    ∀ (stream : List Lead) (raises : Bool) (idx : Nat) (buffer : List Lead)
      (acc : LoopAcc) (db : DBState),
    (∀ l ∈ buffer, validate_lead l = true) →
    ∀ l ∈ (scrapeLoop sid ml stream raises idx buffer acc db).buffer,
      validate_lead l = true := by
  intro stream
  induction stream with
  | nil => intro raises idx buffer acc db hbuf; rw [scrapeLoop_nil]; exact hbuf
  | cons lead rest ih =>
    intro raises idx buffer acc db hbuf
    cases hg : (capTruthy ml && decide (ml.getD 0 ≤ idx)) with
    | true =>
      rw [scrapeLoop_cons_break sid ml lead rest raises idx buffer acc db hg]
      exact hbuf
    | false =>
      cases hv : validate_lead lead with
      | false =>
        rw [scrapeLoop_cons_invalid sid ml lead rest raises idx buffer acc db hg hv]
        exact ih raises (idx + 1) buffer _ db hbuf
      | true =>
        have hbuf' : ∀ l ∈ buffer ++ [lead], validate_lead l = true := by
          intro l hl
          rcases List.mem_append.mp hl with h | h
          · exact hbuf l h
          · rw [List.mem_singleton.mp h]; exact hv
        by_cases hb : buffer_size ≤ (buffer ++ [lead]).length
        · rw [scrapeLoop_cons_flush sid ml lead rest raises idx buffer acc db hg hv hb]
          exact ih raises (idx + 1) []
            { scraped := acc.scraped + 1
              saved := acc.saved + (bulk_save_leads db sid (buffer ++ [lead])).1.1
              dups := acc.dups + (bulk_save_leads db sid (buffer ++ [lead])).1.2
              errors := acc.errors }
            (bulk_save_leads db sid (buffer ++ [lead])).2 (by intro l hl; simp at hl)
        · rw [scrapeLoop_cons_grow sid ml lead rest raises idx buffer acc db hg hv hb]
          exact ih raises (idx + 1) (buffer ++ [lead]) _ db hbuf'

/-- Provenance of rows through the loop: every row of the resulting
`leads` table was either already there when the loop started, or is the
saved image of a lead that passed `validate_lead` (assuming the buffer
handed in holds only validated leads — at loop entry it is empty). -/
theorem scrapeLoop_rows (sid : Nat) (ml : Option Nat) :
    ∀ (stream : List Lead) (raises : Bool) (idx : Nat) (buffer : List Lead)
      (acc : LoopAcc) (db : DBState),
    (∀ l ∈ buffer, validate_lead l = true) →
    ∀ row ∈ (scrapeLoop sid ml stream raises idx buffer acc db).db.leads,
      row ∈ db.leads ∨ ∃ i l, validate_lead l = true ∧ row = leadRowOf i sid l := by
  intro stream
  induction stream with
  | nil =>
    intro raises idx buffer acc db _ row hrow
    rw [scrapeLoop_nil] at hrow
    exact Or.inl hrow
  | cons lead rest ih =>
    intro raises idx buffer acc db hbuf row hrow
    cases hg : (capTruthy ml && decide (ml.getD 0 ≤ idx)) with
    | true =>
      rw [scrapeLoop_cons_break sid ml lead rest raises idx buffer acc db hg] at hrow
      exact Or.inl hrow
    | false =>
      cases hv : validate_lead lead with
      | false =>
        rw [scrapeLoop_cons_invalid sid ml lead rest raises idx buffer acc db hg hv] at hrow
        exact ih raises (idx + 1) buffer _ db hbuf row hrow
      | true =>
        have hbuf' : ∀ l ∈ buffer ++ [lead], validate_lead l = true := by
          intro l hl
          rcases List.mem_append.mp hl with h | h
          · exact hbuf l h
          · rw [List.mem_singleton.mp h]; exact hv
        by_cases hb : buffer_size ≤ (buffer ++ [lead]).length
        · rw [scrapeLoop_cons_flush sid ml lead rest raises idx buffer acc db hg hv hb] at hrow
          rcases ih raises (idx + 1) []
            { scraped := acc.scraped + 1
              saved := acc.saved + (bulk_save_leads db sid (buffer ++ [lead])).1.1
              dups := acc.dups + (bulk_save_leads db sid (buffer ++ [lead])).1.2
              errors := acc.errors }
            (bulk_save_leads db sid (buffer ++ [lead])).2
            (by intro l hl; simp at hl) row hrow with h | h
          · rcases bulk_save_rows sid (buffer ++ [lead]) db row h with h2 | ⟨l, hl, i, hi⟩
            · exact Or.inl h2
            · exact Or.inr ⟨i, l, hbuf' l hl, hi⟩
          · exact Or.inr h
        · rw [scrapeLoop_cons_grow sid ml lead rest raises idx buffer acc db hg hv hb] at hrow
          exact ih raises (idx + 1) (buffer ++ [lead]) _ db hbuf' row hrow

/-! Characterizations of `run_scraper`, one per control path. -/

theorem run_scraper_not_found (db : DBState) (sid : Nat) (ml : Option Nat)
    (ad : Option AdapterRun)
    (hf : db.sources.find? (fun s => s.id = sid) = none) :
    run_scraper db sid ml ad = (earlyResult "Source not found", db) := by
  simp [run_scraper, hf]

theorem run_scraper_disabled (db : DBState) (sid : Nat) (ml : Option Nat)
    (ad : Option AdapterRun) (src : SourceRow)
    (hf : db.sources.find? (fun s => s.id = sid) = some src)
    (he : src.enabled = false) :
    run_scraper db sid ml ad = (earlyResult "Source is disabled", db) := by
  simp [run_scraper, hf, he]

theorem run_scraper_no_scraper (db : DBState) (sid : Nat) (ml : Option Nat)
    (src : SourceRow)
    (hf : db.sources.find? (fun s => s.id = sid) = some src)
    (he : src.enabled = true) :
    run_scraper db sid ml none =
      (earlyResult "Scraper not available",
        update_scrape_log (start_scrape_log db sid).2 (start_scrape_log db sid).1
          "failed" 0 (some "Scraper not available")) := by
  simp [run_scraper, hf, he]

theorem run_scraper_raised_eq (db : DBState) (sid : Nat) (ml : Option Nat)
    (ad : AdapterRun) (src : SourceRow)
    (hf : db.sources.find? (fun s => s.id = sid) = some src)
    (he : src.enabled = true)
    (hr : (runLoop db sid ml ad).raised = true) :
    run_scraper db sid ml (some ad) =
      ({ success := false
         leads_scraped := (runLoop db sid ml ad).acc.scraped
         leads_saved := (runLoop db sid ml ad).acc.saved
         duplicates := (runLoop db sid ml ad).acc.dups
         errors := (runLoop db sid ml ad).acc.errors ++
           ["Scraping failed: " ++ ad.excMsg]
         error := none },
       update_scrape_log (runLoop db sid ml ad).db (start_scrape_log db sid).1
         "failed" (runLoop db sid ml ad).acc.saved
         (some ("Scraping failed: " ++ ad.excMsg))) := by
  obtain ⟨stream, raises, msg⟩ := ad
  simp only [runLoop, initAcc] at hr ⊢
  simp [run_scraper, hf, he, hr]

theorem run_scraper_clean_eq (db : DBState) (sid : Nat) (ml : Option Nat)
    (ad : AdapterRun) (src : SourceRow)
    (hf : db.sources.find? (fun s => s.id = sid) = some src)
    (he : src.enabled = true)
    (hr : (runLoop db sid ml ad).raised = false) :
    run_scraper db sid ml (some ad) =
      (let fl :=
        if (runLoop db sid ml ad).buffer.isEmpty then ((0, 0), (runLoop db sid ml ad).db)
        else bulk_save_leads (runLoop db sid ml ad).db sid (runLoop db sid ml ad).buffer
       ({ success := true
          leads_scraped := (runLoop db sid ml ad).acc.scraped
          leads_saved := (runLoop db sid ml ad).acc.saved + fl.1.1
          duplicates := (runLoop db sid ml ad).acc.dups + fl.1.2
          errors := (runLoop db sid ml ad).acc.errors
          error := none },
        update_scrape_log fl.2 (start_scrape_log db sid).1 "success"
          ((runLoop db sid ml ad).acc.saved + fl.1.1) none)) := by
  obtain ⟨stream, raises, msg⟩ := ad
  simp only [runLoop, initAcc] at hr ⊢
  simp [run_scraper, hf, he, hr]

/-! Claim theorems. -/

/-- C6: deleting a source removes all of that source's leads, run logs
and scheduled jobs as well as the source row itself, and a row survives
the deletion exactly when it belongs to a different source — so no
orphan rows for the deleted source remain, and other sources' rows are
unchanged. -/
theorem delete_source_cascades (db : DBState) (sid : Nat) :
    (∀ r : LeadRow, r ∈ (delete_source db sid).leads ↔ r ∈ db.leads ∧ r.source_id ≠ sid) ∧
    (∀ r : LogRow, r ∈ (delete_source db sid).logs ↔ r ∈ db.logs ∧ r.source_id ≠ sid) ∧
    (∀ r : JobRow, r ∈ (delete_source db sid).jobs ↔ r ∈ db.jobs ∧ r.source_id ≠ sid) ∧
    (∀ s : SourceRow, s ∈ (delete_source db sid).sources ↔ s ∈ db.sources ∧ s.id ≠ sid) := by
  refine ⟨fun r => ?_, fun r => ?_, fun r => ?_, fun s => ?_⟩ <;>
    simp [delete_source, List.mem_filter]

/-- C8: the post-fetch delay is `base_delay` plus the `uniform(-1, 2)`
sample, clamped into `[min_delay, max_delay]`: it always lies in that
interval, and equals `base_delay + u` whenever that sum is already in
range; `_make_request` performs exactly this jittered sleep (with the
default floor 2 and ceiling 7) after a successful fetch, seeded with the
per-source `rate_limit_delay`, and no sleep on a failed fetch. -/
theorem jitter_delay_clamped (base min_d max_d u rate : ℚ)
    (hm : min_d ≤ max_d) (_hu1 : -1 ≤ u) (_hu2 : u ≤ 2) :
    min_d ≤ jitter_delay base min_d max_d u ∧
    jitter_delay base min_d max_d u ≤ max_d ∧
    (min_d ≤ base + u → base + u ≤ max_d →
      jitter_delay base min_d max_d u = base + u) ∧
    make_request_sleeps true rate u = [jitter_delay rate 2 7 u] ∧
    make_request_sleeps false rate u = [] := by
  refine ⟨le_max_left _ _, max_le hm (min_le_left _ _), fun h1 h2 => ?_, rfl, rfl⟩
  unfold jitter_delay
  rw [min_eq_right h2, max_eq_right h1]

/-- C8 witness at `base = 3`, `u = 0`, the default clamp `[2, 7]`. -/
theorem jitter_delay_clamped_witness :
    (2 : ℚ) ≤ jitter_delay 3 2 7 0 ∧ jitter_delay 3 2 7 0 ≤ 7 ∧
    make_request_sleeps true 3 0 = [jitter_delay 3 2 7 0] := by
  have h := jitter_delay_clamped 3 2 7 0 3 (by norm_num) (by norm_num) (by norm_num)
  exact ⟨h.1, h.2.1, h.2.2.2.1⟩

/-- C9: the engine treats `max_leads = 0` as falsy, exactly like passing
no cap: `run(sourceId, 0)` and `run(sourceId, None)` are the same
function of the adapter behaviour and database state. -/
theorem run_scraper_zero_cap_is_no_cap (db : DBState) (sid : Nat)
    (adapter : Option AdapterRun) :
    run_scraper db sid (some 0) adapter = run_scraper db sid none adapter := by
  cases hf : db.sources.find? (fun s => s.id = sid) with
  | none =>
    rw [run_scraper_not_found db sid (some 0) adapter hf,
        run_scraper_not_found db sid none adapter hf]
  | some src =>
    cases he : src.enabled with
    | false =>
      rw [run_scraper_disabled db sid (some 0) adapter src hf he,
          run_scraper_disabled db sid none adapter src hf he]
    | true =>
      cases adapter with
      | none =>
        rw [run_scraper_no_scraper db sid (some 0) src hf he,
            run_scraper_no_scraper db sid none src hf he]
      | some ad =>
        have hl : runLoop db sid (some 0) ad = runLoop db sid none ad := by
          unfold runLoop
          exact scrapeLoop_no_cap_eq sid (some 0) rfl ad.stream ad.raises 0 []
            initAcc (start_scrape_log db sid).2
        cases hr : (runLoop db sid none ad).raised with
        | true =>
          rw [run_scraper_raised_eq db sid (some 0) ad src hf he (by rw [hl]; exact hr),
              run_scraper_raised_eq db sid none ad src hf he hr, hl]
        | false =>
          rw [run_scraper_clean_eq db sid (some 0) ad src hf he (by rw [hl]; exact hr),
              run_scraper_clean_eq db sid none ad src hf he hr, hl]

/-- C10: `save_lead` performs no validation of its own: a lead with no
`business_name` key and no duplicate-key collision is inserted with
`business_name = ''` and a fresh id, and a missing contact field can
never cause a rejection — in particular a lead with no phone can never
even collide with the UNIQUE key, so it is always inserted. -/
theorem save_lead_skips_validation (db : DBState) (sid : Nat) (lead : Lead)
    (hname : lead.business_name = none) :
    (lead.phone = none → hasConflict db lead = false) ∧
    (hasConflict db lead = false →
      save_lead db sid lead =
        (some db.nextLeadId,
          { db with leads := db.leads ++ [leadRowOf db.nextLeadId sid lead],
                    nextLeadId := db.nextLeadId + 1 }) ∧
      (leadRowOf db.nextLeadId sid lead).business_name = "") := by
  constructor
  · intro hp
    simp only [hasConflict, List.any_eq_false]
    intro row _
    unfold leadConflict
    rw [hp, optSqlEq_none_right]
    simp
  · intro hc
    exact ⟨save_lead_of_fresh db sid lead hc, by simp [leadRowOf, hname]⟩

/-- C10 witness: the empty lead record saved into the empty database. -/
theorem save_lead_skips_validation_witness :
    hasConflict emptyDB blankLead = false ∧
    (save_lead emptyDB 1 blankLead).1 = some 1 ∧
    (leadRowOf 1 1 blankLead).business_name = "" := by
  have h := (save_lead_skips_validation emptyDB 1 blankLead rfl).2 rfl
  exact ⟨rfl, by rw [h.1]; rfl, h.2⟩

/-- C4 counterexample: running a disabled source yields success = false
with the `Source is disabled` reason, but — contrary to the claim — NO
run-log row is created: the engine returns before `start_scrape_log`,
and the `scraper_logs` table stays empty. -/
theorem run_disabled_creates_no_log_row :
    (run_scraper dbDisabled 1 none
      (some { stream := [], raises := false, excMsg := "" })).1.success = false ∧
    (run_scraper dbDisabled 1 none
      (some { stream := [], raises := false, excMsg := "" })).1.error =
      some "Source is disabled" ∧
    (run_scraper dbDisabled 1 none
      (some { stream := [], raises := false, excMsg := "" })).2.logs = [] := by
  exact ⟨rfl, rfl, rfl⟩

/-- C4 (amended): running a source that exists but is disabled yields
the early dict `{success: false, error: 'Source is disabled'}` and
leaves the database — its `scraper_logs` table included — completely
unchanged; no log row is created for a disabled source, and none for a
missing source id either. -/
theorem run_scraper_disabled_no_log (db : DBState) (sid : Nat) (ml : Option Nat)
    (ad : Option AdapterRun) (src : SourceRow)
    (hf : db.sources.find? (fun s => s.id = sid) = some src)
    (he : src.enabled = false) :
    run_scraper db sid ml ad = (earlyResult "Source is disabled", db) ∧
    (∀ (db' : DBState) (sid' : Nat),
      db'.sources.find? (fun s => s.id = sid') = none →
      run_scraper db' sid' ml ad = (earlyResult "Source not found", db')) :=
  ⟨run_scraper_disabled db sid ml ad src hf he,
   fun db' sid' hf' => run_scraper_not_found db' sid' ml ad hf'⟩

/-- C4 witness: the concrete one-disabled-source database. -/
theorem run_scraper_disabled_no_log_witness :
    run_scraper dbDisabled 1 none none = (earlyResult "Source is disabled", dbDisabled) ∧
    run_scraper emptyDB 1 none none = (earlyResult "Source not found", emptyDB) := by
  have h := run_scraper_disabled_no_log dbDisabled 1 none none disabledSrc rfl rfl
  exact ⟨h.1, h.2 emptyDB 1 rfl⟩

/-- C7 counterexample: `ExampleDirectScraper.parse_lead` on an element
where no field — `business_name` included — can be extracted returns a
lead record with `business_name = None` rather than discarding the
element, contradicting the claim that every adapter's parse returns
nothing when business_name cannot be extracted. -/
theorem exampleDirect_keeps_nameless_element :
    exampleDirect_parse_lead allSelectors noNameElement = some blankLead ∧
    blankLead.business_name = none := ⟨rfl, rfl⟩

/-- C7 (amended): per-field extraction failures degrade to `None` in
both adapters; the business_name-discards-the-element rule holds in
`YellowPagesProScraper.parse_lead` (missing name node → no lead, present
name node → lead with the other fields individually degraded), but NOT
in `ExampleDirectScraper.parse_lead`, which always returns a lead record
— a nameless one is weeded out later by engine-side validation, not by
the parser. -/
theorem parse_lead_name_handling :
    (∀ e : Element, e.text yp_name_locator = none →
      yellowpages_parse_lead e = none) ∧
    (∀ (e : Element) (nm : String), e.text yp_name_locator = some nm →
      yellowpages_parse_lead e =
        some { business_name := some nm, phone := e.text yp_phone_locator,
               city := e.text yp_city_locator, state := e.text yp_state_locator,
               category := some "Yellow Pages" }) ∧
    (∀ (sels : String → Option String) (e : Element),
      (exampleDirect_parse_lead sels e).isSome = true) := by
  refine ⟨fun e h => ?_, fun e nm h => ?_, fun sels e => rfl⟩
  · simp [yellowpages_parse_lead, h]
  · simp [yellowpages_parse_lead, h]

/-- C7 witness: the empty element has no business-name node, so the
YellowPages parser discards it. -/
theorem parse_lead_name_handling_witness :
    yellowpages_parse_lead noNameElement = none :=
  parse_lead_name_handling.1 noNameElement rfl

/-- C1 counterexample: the spec's own dedup lead `{name: "A", phone:
"1"}` carries no city, so its city column is NULL; SQLite's UNIQUE
treats NULLs as distinct and the second save of the identical triple
also succeeds (returns a fresh id) and grows the table to two rows. -/
theorem save_lead_null_city_not_deduped :
    (save_lead (save_lead emptyDB 1 dupLead).2 1 dupLead).1 = some 2 ∧
    (save_lead (save_lead emptyDB 1 dupLead).2 1 dupLead).2.leads.length = 2 := by
  exact ⟨rfl, rfl⟩

/-- C1 (amended): when the natural-key columns city and phone are both
non-NULL, the dedup invariant holds: the first save of a fresh triple
succeeds, and every later save of a lead with the identical
(business_name, city, phone) triple is reported as a duplicate (`None`),
leaves the database unchanged, and does not increase the lead count;
`bulk_save_leads` counts the pair as one saved, one duplicate. -/
theorem save_lead_dedup_nonnull_key (db : DBState) (sid sid' : Nat)
    (lead lead' : Lead) (c p : String)
    (hc : lead.city = some c) (hp : lead.phone = some p)
    (hc' : lead'.city = some c) (hp' : lead'.phone = some p)
    (hn : lead'.business_name.getD "" = lead.business_name.getD "") :
    (hasConflict db lead = false → (save_lead db sid lead).1 = some db.nextLeadId) ∧
    save_lead (save_lead db sid lead).2 sid' lead' = (none, (save_lead db sid lead).2) ∧
    (save_lead (save_lead db sid lead).2 sid' lead').2.leads.length =
      (save_lead db sid lead).2.leads.length ∧
    (hasConflict db lead = false →
      bulk_save_leads db sid [lead, lead'] = ((1, 1), (save_lead db sid lead).2)) := by
  have hkey : hasConflict (save_lead db sid lead).2 lead' = true := by
    by_cases h : hasConflict db lead
    · rw [save_lead_of_conflict db sid lead h]
      rw [hasConflict_iff] at h ⊢
      obtain ⟨row, hrow, hcf⟩ := h
      refine ⟨row, hrow, ?_⟩
      unfold leadConflict at hcf ⊢
      rw [hc, hp] at hcf
      rw [hc', hp', hn]
      exact hcf
    · rw [save_lead_of_fresh db sid lead (by simpa using h)]
      rw [hasConflict_iff]
      refine ⟨leadRowOf db.nextLeadId sid lead, by simp, ?_⟩
      unfold leadConflict leadRowOf
      dsimp only
      rw [hc, hp, hc', hp', hn]
      simp [optSqlEq]
  refine ⟨fun h => by rw [save_lead_of_fresh db sid lead h], ?_, ?_, fun h => ?_⟩
  · exact save_lead_of_conflict _ sid' lead' hkey
  · rw [save_lead_of_conflict _ sid' lead' hkey]
  · have h1 := save_lead_of_fresh db sid lead h
    have h2 := save_lead_of_conflict (save_lead db sid lead).2 sid lead' hkey
    rw [h1] at h2
    simp [bulk_save_leads, h1, h2]

/-- C1 witness: a fully-keyed lead saved twice into the empty database:
first save succeeds with id 1, the second is the duplicate. -/
theorem save_lead_dedup_nonnull_key_witness :
    (save_lead emptyDB 1 keyedLead).1 = some 1 ∧
    save_lead (save_lead emptyDB 1 keyedLead).2 2 keyedLead =
      (none, (save_lead emptyDB 1 keyedLead).2) ∧
    bulk_save_leads emptyDB 1 [keyedLead, keyedLead] =
      ((1, 1), (save_lead emptyDB 1 keyedLead).2) := by
  have h := save_lead_dedup_nonnull_key emptyDB 1 2 keyedLead keyedLead "C" "1"
    rfl rfl rfl rfl rfl
  exact ⟨h.1 rfl, h.2.1, h.2.2.2 rfl⟩

/-- Field-level reading of the raised path of `run_scraper`. -/
theorem run_scraper_raised_counts (db : DBState) (sid : Nat) (ml : Option Nat)
    (ad : AdapterRun) (src : SourceRow)
    (hf : db.sources.find? (fun s => s.id = sid) = some src)
    (he : src.enabled = true)
    (hr : (runLoop db sid ml ad).raised = true) :
    (run_scraper db sid ml (some ad)).1.success = false ∧
    (run_scraper db sid ml (some ad)).1.leads_scraped = (runLoop db sid ml ad).acc.scraped ∧
    (run_scraper db sid ml (some ad)).1.leads_saved = (runLoop db sid ml ad).acc.saved ∧
    (run_scraper db sid ml (some ad)).1.duplicates = (runLoop db sid ml ad).acc.dups ∧
    (run_scraper db sid ml (some ad)).1.errors =
      (runLoop db sid ml ad).acc.errors ++ ["Scraping failed: " ++ ad.excMsg] ∧
    (run_scraper db sid ml (some ad)).2 =
      update_scrape_log (runLoop db sid ml ad).db (start_scrape_log db sid).1
        "failed" (runLoop db sid ml ad).acc.saved
        (some ("Scraping failed: " ++ ad.excMsg)) := by
  rw [run_scraper_raised_eq db sid ml ad src hf he hr]
  exact ⟨rfl, rfl, rfl, rfl, rfl, rfl⟩

/-- Field-level reading of the clean path of `run_scraper`: the trailing
flush empties the buffer, so saved + duplicates accounts for the whole
buffer as well. -/
theorem run_scraper_clean_counts (db : DBState) (sid : Nat) (ml : Option Nat)
    (ad : AdapterRun) (src : SourceRow)
    (hf : db.sources.find? (fun s => s.id = sid) = some src)
    (he : src.enabled = true)
    (hr : (runLoop db sid ml ad).raised = false) :
    (run_scraper db sid ml (some ad)).1.success = true ∧
    (run_scraper db sid ml (some ad)).1.leads_scraped = (runLoop db sid ml ad).acc.scraped ∧
    (run_scraper db sid ml (some ad)).1.leads_saved +
        (run_scraper db sid ml (some ad)).1.duplicates =
      (runLoop db sid ml ad).acc.saved + (runLoop db sid ml ad).acc.dups +
        (runLoop db sid ml ad).buffer.length ∧
    (run_scraper db sid ml (some ad)).1.errors = (runLoop db sid ml ad).acc.errors := by
  rw [run_scraper_clean_eq db sid ml ad src hf he hr]
  dsimp only
  by_cases hbe : (runLoop db sid ml ad).buffer.isEmpty
  · rw [if_pos hbe]
    have hlen : (runLoop db sid ml ad).buffer.length = 0 := by
      rcases hx : (runLoop db sid ml ad).buffer with _ | ⟨a, l⟩
      · rfl
      · rw [hx] at hbe; simp [List.isEmpty] at hbe
    refine ⟨rfl, rfl, ?_, rfl⟩
    dsimp only
    omega
  · rw [if_neg hbe]
    have hc := bulk_save_counts sid (runLoop db sid ml ad).buffer (runLoop db sid ml ad).db
    refine ⟨rfl, rfl, ?_, rfl⟩
    dsimp only
    omega

/-- C2 counterexample: with `maxLeads = 0` the Python guard
`if max_leads and idx >= max_leads` never fires (0 is falsy), so a
one-lead adapter still reports `leads_scraped = 1 > 0`, violating
"never reports leads_scraped greater than N" at N = 0. -/
theorem run_scraper_zero_cap_scrapes_past_cap :
    (run_scraper dbOneSource 1 (some 0)
      (some { stream := [validLead], raises := false, excMsg := "" })).1.leads_scraped = 1 := by
  rfl

/-- C2 (amended): for every positive cap N — zero is falsy and means
"no cap", see C9 — the run reports at most N scraped leads, and any
partially filled buffer is flushed before stopping: whenever the run
does not die in a generator exception (in particular whenever the cap
itself stops the iteration because the stream is longer than N), every
scraped lead was handed to a flush, i.e. saved + duplicates = scraped. -/
theorem run_scraper_cap (db : DBState) (sid n : Nat)
    (stream : List Lead) (raises : Bool) (msg : String) (hn : 1 ≤ n) :
    (run_scraper db sid (some n)
      (some { stream := stream, raises := raises, excMsg := msg })).1.leads_scraped ≤ n ∧
    ((raises = false ∨ n < stream.length) →
      (run_scraper db sid (some n)
          (some { stream := stream, raises := raises, excMsg := msg })).1.leads_saved +
        (run_scraper db sid (some n)
          (some { stream := stream, raises := raises, excMsg := msg })).1.duplicates =
      (run_scraper db sid (some n)
        (some { stream := stream, raises := raises, excMsg := msg })).1.leads_scraped) := by
  have hct : capTruthy (some n) = true := by
    simp only [capTruthy, ne_eq, decide_not, Bool.not_eq_true', decide_eq_false_iff_not,
      Decidable.not_not]
    omega
  cases hf : db.sources.find? (fun s => s.id = sid) with
  | none =>
    rw [run_scraper_not_found db sid (some n) _ hf]
    exact ⟨Nat.zero_le n, fun _ => rfl⟩
  | some src =>
    cases he : src.enabled with
    | false =>
      rw [run_scraper_disabled db sid (some n) _ src hf he]
      exact ⟨Nat.zero_le n, fun _ => rfl⟩
    | true =>
      have hbound := scrapeLoop_cap_bound sid n hct stream raises 0 [] initAcc
        (start_scrape_log db sid).2
      have h0 : initAcc.scraped = 0 := rfl
      cases hr : (runLoop db sid (some n) ⟨stream, raises, msg⟩).raised with
      | true =>
        have hcts := run_scraper_raised_counts db sid (some n) ⟨stream, raises, msg⟩
          src hf he hr
        constructor
        · rw [hcts.2.1]
          exact le_trans hbound (by omega)
        · intro hflu
          exfalso
          rcases hflu with hflu | hflu
          · have himp := scrapeLoop_raised_imp sid (some n) stream raises 0 [] initAcc
              (start_scrape_log db sid).2 hr
            rw [hflu] at himp
            exact Bool.false_ne_true himp
          · have hbr := scrapeLoop_cap_breaks sid n hct stream raises 0 [] initAcc
              (start_scrape_log db sid).2 (by omega)
            have : (runLoop db sid (some n)
                (⟨stream, raises, msg⟩ : AdapterRun)).raised = false := hbr
            rw [this] at hr
            exact Bool.false_ne_true hr
      | false =>
        have hcts := run_scraper_clean_counts db sid (some n) ⟨stream, raises, msg⟩
          src hf he hr
        have hbal := scrapeLoop_balance sid (some n) stream raises 0 [] initAcc
          (start_scrape_log db sid).2
        have h0s : initAcc.saved = 0 := rfl
        have h0d : initAcc.dups = 0 := rfl
        have h0b : ([] : List Lead).length = 0 := rfl
        constructor
        · rw [hcts.2.1]
          exact le_trans hbound (by omega)
        · intro _
          have hsum := hcts.2.2.1
          have hrl : runLoop db sid (some n)
              (⟨stream, raises, msg⟩ : AdapterRun) =
              scrapeLoop sid (some n) stream raises 0 [] initAcc
                (start_scrape_log db sid).2 := rfl
          rw [← hrl] at hbal
          rw [hcts.2.1]
          omega

/-- C2 witness at N = 1 with a two-lead stream: one lead scraped, and it
was flushed. -/
theorem run_scraper_cap_witness :
    (run_scraper dbOneSource 1 (some 1)
      (some { stream := [validLead, validLead], raises := false,
              excMsg := "" })).1.leads_scraped ≤ 1 ∧
    (run_scraper dbOneSource 1 (some 1)
        (some { stream := [validLead, validLead], raises := false,
                excMsg := "" })).1.leads_saved +
      (run_scraper dbOneSource 1 (some 1)
        (some { stream := [validLead, validLead], raises := false,
                excMsg := "" })).1.duplicates =
    (run_scraper dbOneSource 1 (some 1)
      (some { stream := [validLead, validLead], raises := false,
              excMsg := "" })).1.leads_scraped := by
  have h := run_scraper_cap dbOneSource 1 1 [validLead, validLead] false ""
    (by decide)
  exact ⟨h.1, h.2 (Or.inl rfl)⟩

/-- `validate_lead` as a single boolean formula. -/
theorem validate_lead_eq (l : Lead) :
    validate_lead l =
      (truthyOpt l.business_name &&
        (truthyOpt l.phone || truthyOpt l.email || truthyOpt l.website)) := by
  have hbool : ∀ a b c d : Bool,
      (if !a then false else if !(b || c || d) then false else true) =
        (a && (b || c || d)) := by decide
  exact hbool (truthyOpt l.business_name) (truthyOpt l.phone)
    (truthyOpt l.email) (truthyOpt l.website)

/-- A validated lead's saved row has a non-empty business name and at
least one truthy contact field. -/
theorem validate_lead_row (l : Lead) (i sid : Nat)
    (h : validate_lead l = true) :
    (leadRowOf i sid l).business_name ≠ "" ∧
    (truthyOpt (leadRowOf i sid l).phone = true ∨
     truthyOpt (leadRowOf i sid l).email = true ∨
     truthyOpt (leadRowOf i sid l).website = true) := by
  rw [validate_lead_eq] at h
  simp only [Bool.and_eq_true, Bool.or_eq_true] at h
  obtain ⟨hb, hcontact⟩ := h
  constructor
  · unfold leadRowOf
    dsimp only
    cases hx : l.business_name with
    | none => rw [hx] at hb; exact absurd hb (by simp [truthyOpt])
    | some s =>
      rw [hx] at hb
      simp only [truthyOpt, ne_eq, decide_eq_true_eq] at hb
      simpa [Option.getD] using hb
  · unfold leadRowOf
    dsimp only
    rcases hcontact with (h | h) | h
    · exact Or.inl h
    · exact Or.inr (Or.inl h)
    · exact Or.inr (Or.inr h)

/-- C3: every row persisted by an engine run passed validation — any row
of the final leads table is either pre-existing or has a non-empty
business_name and at least one truthy contact field among phone, email,
website — and when the generator ends cleanly (no cap in play) invalid
leads do not abort the run: it still succeeds, with exactly one
error-list entry per invalid lead of the stream. -/
theorem run_scraper_validates (db : DBState) (sid : Nat) (ml : Option Nat)
    (stream : List Lead) (raises : Bool) (msg : String) (src : SourceRow)
    (hf : db.sources.find? (fun s => s.id = sid) = some src)
    (he : src.enabled = true) :
    (∀ row ∈ (run_scraper db sid ml (some ⟨stream, raises, msg⟩)).2.leads,
      row ∈ db.leads ∨
        (row.business_name ≠ "" ∧
          (truthyOpt row.phone = true ∨ truthyOpt row.email = true ∨
            truthyOpt row.website = true))) ∧
    (raises = false → capTruthy ml = false →
      (run_scraper db sid ml (some ⟨stream, raises, msg⟩)).1.success = true ∧
      (run_scraper db sid ml (some ⟨stream, raises, msg⟩)).1.errors.length =
        (stream.filter fun l => !validate_lead l).length) := by
  have hemp : ∀ l ∈ ([] : List Lead), validate_lead l = true := by
    intro l hl; simp at hl
  constructor
  · intro row hrow
    cases hr : (runLoop db sid ml ⟨stream, raises, msg⟩).raised with
    | true =>
      have hst := (run_scraper_raised_counts db sid ml ⟨stream, raises, msg⟩
        src hf he hr).2.2.2.2.2
      rw [hst] at hrow
      have hrow' : row ∈ (runLoop db sid ml ⟨stream, raises, msg⟩).db.leads := hrow
      rcases scrapeLoop_rows sid ml stream raises 0 [] initAcc
        (start_scrape_log db sid).2 hemp row hrow' with h | ⟨i, l, hvl, hrw⟩
      · exact Or.inl h
      · right; rw [hrw]; exact validate_lead_row l i sid hvl
    | false =>
      rw [run_scraper_clean_eq db sid ml ⟨stream, raises, msg⟩ src hf he hr] at hrow
      dsimp only at hrow
      by_cases hbe : (runLoop db sid ml ⟨stream, raises, msg⟩).buffer.isEmpty
      · rw [if_pos hbe] at hrow
        have hrow' : row ∈ (runLoop db sid ml ⟨stream, raises, msg⟩).db.leads := hrow
        rcases scrapeLoop_rows sid ml stream raises 0 [] initAcc
          (start_scrape_log db sid).2 hemp row hrow' with h | ⟨i, l, hvl, hrw⟩
        · exact Or.inl h
        · right; rw [hrw]; exact validate_lead_row l i sid hvl
      · rw [if_neg hbe] at hrow
        have hrow' : row ∈ (bulk_save_leads
            (runLoop db sid ml ⟨stream, raises, msg⟩).db sid
            (runLoop db sid ml ⟨stream, raises, msg⟩).buffer).2.leads := hrow
        rcases bulk_save_rows sid (runLoop db sid ml ⟨stream, raises, msg⟩).buffer
          (runLoop db sid ml ⟨stream, raises, msg⟩).db row hrow' with h | ⟨l, hl, i, hi⟩
        · rcases scrapeLoop_rows sid ml stream raises 0 [] initAcc
            (start_scrape_log db sid).2 hemp row h with h2 | ⟨j, l2, hvl, hrw⟩
          · exact Or.inl h2
          · right; rw [hrw]; exact validate_lead_row l2 j sid hvl
        · have hvl := scrapeLoop_buffer_valid sid ml stream raises 0 [] initAcc
            (start_scrape_log db sid).2 hemp l hl
          right; rw [hi]; exact validate_lead_row l i sid hvl
  · intro hraises hml
    have hr : (runLoop db sid ml ⟨stream, raises, msg⟩).raised = false := by
      rw [hraises]
      exact scrapeLoop_no_cap_raised sid ml hml stream false 0 [] initAcc
        (start_scrape_log db sid).2
    have hcts := run_scraper_clean_counts db sid ml ⟨stream, raises, msg⟩ src hf he hr
    refine ⟨hcts.1, ?_⟩
    rw [hcts.2.2.2]
    have h2 : (runLoop db sid ml ⟨stream, raises, msg⟩).acc.errors.length =
        initAcc.errors.length + (stream.filter fun l => !validate_lead l).length :=
      scrapeLoop_no_cap_errors sid ml hml stream raises 0 [] initAcc
        (start_scrape_log db sid).2
    have h3 : initAcc.errors.length = 0 := rfl
    rw [h2, h3]
    omega

/-- C3 witness: a valid lead and a contactless lead; the run succeeds
with one error entry, with the invalid lead skipped. -/
theorem run_scraper_validates_witness :
    (run_scraper dbOneSource 1 none
      (some { stream := [validLead, contactlessLead], raises := false,
              excMsg := "" })).1.success = true ∧
    (run_scraper dbOneSource 1 none
      (some { stream := [validLead, contactlessLead], raises := false,
              excMsg := "" })).1.errors.length = 1 := by
  have h := (run_scraper_validates dbOneSource 1 none [validLead, contactlessLead]
    false "" enabledSrc rfl rfl).2 rfl rfl
  refine ⟨h.1, ?_⟩
  rw [h.2]
  rfl

/-- C5: when the adapter's generator raises during iteration (uncapped
run), the engine catches it: the run result reports success = false
while keeping every count accumulated before the failure, the exception
message is appended to the run's error list, and the log row is marked
failed with `leads_scraped` equal to the partial saved count — the same
number the result reports as `leads_saved`. -/
theorem run_scraper_adapter_raises (db : DBState) (sid : Nat)
    (stream : List Lead) (msg : String) (src : SourceRow)
    (hf : db.sources.find? (fun s => s.id = sid) = some src)
    (he : src.enabled = true) :
    (run_scraper db sid none (some ⟨stream, true, msg⟩)).1.success = false ∧
    ("Scraping failed: " ++ msg) ∈
      (run_scraper db sid none (some ⟨stream, true, msg⟩)).1.errors ∧
    ({ id := db.nextLogId, source_id := sid, status := "failed",
       leads_scraped :=
         (run_scraper db sid none (some ⟨stream, true, msg⟩)).1.leads_saved,
       error_message := some ("Scraping failed: " ++ msg),
       completed := true } : LogRow) ∈
      (run_scraper db sid none (some ⟨stream, true, msg⟩)).2.logs := by
  have hr : (runLoop db sid none ⟨stream, true, msg⟩).raised = true :=
    scrapeLoop_no_cap_raised sid none rfl stream true 0 [] initAcc
      (start_scrape_log db sid).2
  have hcts := run_scraper_raised_counts db sid none ⟨stream, true, msg⟩ src hf he hr
  refine ⟨hcts.1, ?_, ?_⟩
  · rw [hcts.2.2.2.2.1]
    exact List.mem_append_right _ (List.mem_singleton_self _)
  · rw [hcts.2.2.2.2.2, hcts.2.2.1]
    have hlogs : (runLoop db sid none ⟨stream, true, msg⟩).db.logs =
        db.logs ++ [{ id := db.nextLogId, source_id := sid, status := "started",
                      leads_scraped := 0, error_message := none,
                      completed := false }] :=
      (scrapeLoop_frame sid none stream true 0 [] initAcc
        (start_scrape_log db sid).2).1
    unfold update_scrape_log
    dsimp only
    rw [hlogs, List.map_append]
    refine List.mem_append_right _ ?_
    simp [start_scrape_log]

/-- C5 witness: the spec's scenario — the adapter yields 60 distinct
valid leads then raises, buffer size 50: exactly one flush of 50
happened, so the result reports leads_saved = 50, success = false, and
the log row is failed with count 50. -/
theorem run_scraper_adapter_raises_witness :
    (run_scraper dbOneSource 1 none
      (some { stream := leads60, raises := true,
              excMsg := "boom" })).1.leads_saved = 50 ∧
    (run_scraper dbOneSource 1 none
      (some { stream := leads60, raises := true,
              excMsg := "boom" })).1.success = false ∧
    ({ id := 1, source_id := 1, status := "failed", leads_scraped := 50,
       error_message := some "Scraping failed: boom",
       completed := true } : LogRow) ∈
      (run_scraper dbOneSource 1 none
        (some { stream := leads60, raises := true, excMsg := "boom" })).2.logs := by
  have h := run_scraper_adapter_raises dbOneSource 1 leads60 "boom" enabledSrc rfl rfl
  have h50 : (run_scraper dbOneSource 1 none
      (some { stream := leads60, raises := true,
              excMsg := "boom" })).1.leads_saved = 50 := by decide
  refine ⟨h50, h.1, ?_⟩
  have hm := h.2.2
  rw [h50] at hm
  exact hm
